import Mathlib

/-!
Verification of the VERTA meeting-analyzer backend (`backend.py`).

The development shallowly embeds the file-intake-and-analysis pipeline of
`backend.py`: upload validation (`upload_file`, `analyze_file`), the external
provider pipeline (`analyze_with_gemini`, including the temp-file lifecycle,
the polling loop and the response normalization), and the static sample
payload (`create_sample_analysis`).

Modelling conventions:
- Text is `List Char` at the processing level; HTTP-level names and JSON
  string values are `String`.
- Python `json.loads` (standard library, not repository code) is modelled by
  `jsonParse`, a parser for the JSON fragment exercised here (null, booleans,
  integers, strings with simple escapes, arrays, objects).
- External-provider behaviour (upload success, processing states, generation
  success, response text) is an explicit environment `ProviderEnv`.
- Local disk I/O (temp-file write, `os.unlink`) is modelled as infallible;
  OS-level I/O failure is below this model.
- `datetime.now()` is modelled as an explicit `now` argument.
-/

/-- JSON values as produced by `json.loads` (numbers restricted to integers,
which covers every number appearing in this development). -/
inductive Json where
  | null
  | bool (b : Bool)
  | num (n : Int)
  | str (s : String)
  | arr (elems : List Json)
  | obj (fields : List (String × Json))
deriving Repr

/-- Python truthiness of a JSON value (`if result:`). -/
def jsonTruthy : Json → Bool
  | .null => false
  | .bool b => b
  | .num n => n != 0
  | .str s => s != ""
  | .arr elems => !elems.isEmpty
  | .obj fields => !fields.isEmpty

/-- Python dict assignment on an association list: replaces in place if the
key is present, appends at the end otherwise. -/
def setAssoc : List (String × Json) → String → Json → List (String × Json)
  | [], k, v => [(k, v)]
  | (k', v') :: rest, k, v =>
    if k' = k then (k, v) :: rest else (k', v') :: setAssoc rest k v

/-- Python `d[k] = v` on a JSON value: succeeds on objects, raises
`TypeError` (modelled as `none`) on anything else. -/
def Json.setKey : Json → String → Json → Option Json
  | .obj fields, k, v => some (.obj (setAssoc fields k v))
  | _, _, _ => none

/-- Key lookup in an association list (first match). -/
def lookupKey : List (String × Json) → String → Option Json
  | [], _ => none
  | (k', v) :: rest, k => if k' = k then some v else lookupKey rest k

/-- Key lookup on a JSON value (objects only). -/
def Json.getKey : Json → String → Option Json
  | .obj fields, k => lookupKey fields k
  | _, _ => none

/-- Whether a JSON value is an object having the given key. -/
def Json.hasKey (j : Json) (k : String) : Bool := (j.getKey k).isSome

/-! ## Text utilities (Python string operations on `List Char`) -/

/-- Characters stripped by Python `str.strip()` (ASCII whitespace). -/
def isWs (c : Char) : Bool :=
  c = ' ' || c = '\t' || c = '\n' || c = '\r' || c = Char.ofNat 11 || c = Char.ofNat 12

/-- Python `str.strip()`. -/
def pyStrip (cs : List Char) : List Char :=
  (((cs.dropWhile isWs).reverse).dropWhile isWs).reverse

/-- Python `str.find(c)`: index of the first occurrence, `none` for `-1`. -/
def findChar : List Char → Char → Option Nat
  | [], _ => none
  | x :: xs, c => if x = c then some 0 else (findChar xs c).map (· + 1)

/-- Python `str.rfind(c)`: index of the last occurrence, `none` for `-1`. -/
def rfindChar (cs : List Char) (c : Char) : Option Nat :=
  match findChar cs.reverse c with
  | some k => some (cs.length - 1 - k)
  | none => none

/-- First cleanup step (backend.py lines 318-319):
`if json_text.startswith("```json"): json_text = json_text[7:]`. -/
def cleanupFence1 (cs : List Char) : List Char :=
  if ("```json".toList).isPrefixOf cs then cs.drop 7 else cs

/-- Second cleanup step (backend.py lines 320-321):
`if json_text.startswith("```"): json_text = json_text[3:]`. -/
def cleanupFence2 (cs : List Char) : List Char :=
  if ("```".toList).isPrefixOf cs then cs.drop 3 else cs

/-- Third cleanup step (backend.py lines 322-323):
`if json_text.endswith("```"): json_text = json_text[:-3]`. -/
def cleanupFence3 (cs : List Char) : List Char :=
  if ("```".toList).isSuffixOf cs then cs.take (cs.length - 3) else cs

/-- The code-fence cleanup of `analyze_with_gemini` (backend.py lines
318-323): drop a leading "```json", then a leading "```", then a trailing
"```". -/
def cleanupJson (cs : List Char) : List Char :=
  cleanupFence3 (cleanupFence2 (cleanupFence1 cs))

/-- The brace-boundary slice of `analyze_with_gemini` (backend.py lines
326-329): if both a first '\x7b' and a last '\x7d' exist, slice between them
inclusive; otherwise leave the text unchanged. -/
def sliceBraces (cs : List Char) : List Char :=
  match findChar cs '{', rfindChar cs '}' with
  | some i, some j => (cs.drop i).take (j + 1 - i)
  | _, _ => cs

/-- The full text normalization applied to `response.text` before
`json.loads` (backend.py lines 315-329): strip, fence cleanup, brace slice. -/
def normalizeText (cs : List Char) : List Char :=
  sliceBraces (cleanupJson (pyStrip cs))

/-! ## A model of `json.loads` -/

/-- Skip JSON whitespace. -/
def skipWs : List Char → List Char
  | [] => []
  | c :: cs => if isWs c then skipWs cs else c :: cs

/-- Parse the body of a JSON string after the opening quote; returns the
content and the remainder after the closing quote. -/
def parseStringBody : List Char → Option (List Char × List Char)
  | [] => none
  | '"' :: rest => some ([], rest)
  | '\\' :: c :: rest =>
    match parseStringBody rest with
    | some (s, r) =>
      let c' := if c = 'n' then '\n' else if c = 't' then '\t'
                else if c = 'r' then '\r' else c
      some (c' :: s, r)
    | none => none
  | c :: rest =>
    match parseStringBody rest with
    | some (s, r) => some (c :: s, r)
    | none => none

/-- Numeric value of a digit character. -/
def digitToNat (c : Char) : Nat := c.toNat - '0'.toNat

/-- Split a character list into its leading digit span and the remainder. -/
def readDigits (cs : List Char) : List Char × List Char :=
  (cs.takeWhile Char.isDigit, cs.dropWhile Char.isDigit)

/-- Value of a digit string. -/
def digitsVal (ds : List Char) : Nat :=
  List.foldl (fun n c => 10 * n + digitToNat c) 0 ds

mutual

/-- Parse one JSON value; returns the value and the remaining input. -/
def parseValue : Nat → List Char → Option (Json × List Char)
  | 0, _ => none
  | fuel + 1, cs =>
    match skipWs cs with
    | [] => none
    | c :: rest =>
      if c = '{' then
        match skipWs rest with
        | '}' :: rest2 => some (.obj [], rest2)
        | _ => parseMembers fuel rest []
      else if c = '[' then
        match skipWs rest with
        | ']' :: rest2 => some (.arr [], rest2)
        | _ => parseElems fuel rest []
      else if c = '"' then
        match parseStringBody rest with
        | some (s, rest2) => some (.str (String.mk s), rest2)
        | none => none
      else if c = 't' then
        if ("rue".toList).isPrefixOf rest then some (.bool true, rest.drop 3) else none
      else if c = 'f' then
        if ("alse".toList).isPrefixOf rest then some (.bool false, rest.drop 4) else none
      else if c = 'n' then
        if ("ull".toList).isPrefixOf rest then some (.null, rest.drop 3) else none
      else if c = '-' then
        match readDigits rest with
        | ([], _) => none
        | (ds, rest2) => some (.num (-(Int.ofNat (digitsVal ds))), rest2)
      else if c.isDigit then
        match readDigits (c :: rest) with
        | (ds, rest2) => some (.num (Int.ofNat (digitsVal ds)), rest2)
      else none

/-- Parse the elements of a non-empty JSON array (after the opening
bracket). -/
def parseElems : Nat → List Char → List Json → Option (Json × List Char)
  | 0, _, _ => none
  | fuel + 1, cs, acc =>
    match parseValue fuel cs with
    | none => none
    | some (v, rest) =>
      match skipWs rest with
      | ',' :: rest2 => parseElems fuel rest2 (v :: acc)
      | ']' :: rest2 => some (.arr (v :: acc).reverse, rest2)
      | _ => none

/-- Parse the members of a non-empty JSON object (after the opening
brace). -/
def parseMembers : Nat → List Char → List (String × Json) → Option (Json × List Char)
  | 0, _, _ => none
  | fuel + 1, cs, acc =>
    match skipWs cs with
    | '"' :: rest =>
      match parseStringBody rest with
      | none => none
      | some (k, rest2) =>
        match skipWs rest2 with
        | ':' :: rest3 =>
          match parseValue fuel rest3 with
          | none => none
          | some (v, rest4) =>
            match skipWs rest4 with
            | ',' :: rest5 => parseMembers fuel rest5 ((String.mk k, v) :: acc)
            | '}' :: rest5 => some (.obj ((String.mk k, v) :: acc).reverse, rest5)
            | _ => none
        | _ => none
    | _ => none

end

/-- Model of Python `json.loads`: parse one JSON value and require only
whitespace after it; `none` models a raised `JSONDecodeError`. -/
def jsonParse (cs : List Char) : Option Json :=
  match parseValue (2 * cs.length + 2) cs with
  | some (v, rest) => if skipWs rest = [] then some v else none
  | none => none

/-- The ResponseNormalizer of the spec: the normalization applied to the raw
provider text followed by the JSON parse, with `parse` standing for
`json.loads`. -/
def jsonExtract (parse : List Char → Option Json) (cs : List Char) : Option Json :=
  parse (normalizeText cs)

example : jsonParse ("42".toList) = some (.num 42) := rfl
example : jsonParse ("\x7b\x7d".toList) = some (.obj []) := rfl
example : jsonParse ("\x7b\"foo\": 1\x7d".toList) = some (.obj [("foo", .num 1)]) := rfl
example : jsonExtract jsonParse ("```json\n\x7b\"a\": [1, 2]\x7d\n```".toList)
    = some (.obj [("a", .arr [.num 1, .num 2])]) := rfl

/-! ## MediaValidator: extension and size policy (backend.py lines 33-34,
85-96, 431-446, 487-502) -/

/-- Maximum upload size in bytes: `MAX_FILE_SIZE = 100 * 1024 * 1024`. -/
def MAX_FILE_SIZE : Nat := 100 * 1024 * 1024

/-- The allow-set `ALLOWED_EXTENSIONS`, kept in the order of the source
literal (Python set iteration order is determinized to literal order). -/
def allowedExtensions : List (List Char) :=
  ["mp3".toList, "wav".toList, "mp4".toList, "mov".toList, "avi".toList, "webm".toList]

/-- The final path component, as `pathlib.Path(...).name`: the last
non-empty segment of the '/'-separated path (empty if there is none). -/
def pathFinalName (cs : List Char) : List Char :=
  (((cs.splitOnP (· = '/')).filter (· ≠ [])).getLast?).getD []

/-- Position of the last '.' in a name, or `none`. -/
def lastDotIdx (name : List Char) : Option Nat := rfindChar name '.'

/-- The extension as `pathlib.Path(...).suffix`: from the last '.' of the
final name onwards, provided that dot is neither the first nor the last
character of the name. -/
def pySuffix (name : List Char) : List Char :=
  match lastDotIdx name with
  | some i => if 0 < i ∧ i < name.length - 1 then name.drop i else []
  | none => []

/-- Python `str.lower()` restricted to ASCII (all extensions here are
ASCII). -/
def pyLower (cs : List Char) : List Char := cs.map Char.toLower

/-- The extension computed by both endpoints:
`Path(file.filename).suffix.lower().lstrip('.')`. -/
def fileExt (filename : String) : List Char :=
  (pyLower (pySuffix (pathFinalName filename.toList))).dropWhile (· = '.')

/-- The unsupported-type message
`f"File type not supported. Allowed: \x7b', '.join(ALLOWED_EXTENSIONS)\x7d"`,
as a function of the iteration order of the set `ALLOWED_EXTENSIONS`:
CPython string hashing is randomized per process, so the order seen by
`', '.join` is not fixed by the program; an admissible order is any
permutation of the literal's elements. -/
def typeNotSupportedDetailWith (order : List (List Char)) : List Char :=
  ("File type not supported. Allowed: ".toList) ++
    List.intercalate (", ".toList) order

/-- The unsupported-type message under the source-literal iteration order
(one admissible order among the permutations). -/
def typeNotSupportedDetail : List Char := typeNotSupportedDetailWith allowedExtensions

/-- The oversize message:
`f"File too large. Maximum size: \x7bMAX_FILE_SIZE // (1024*1024)\x7dMB"`. -/
def sizeTooLargeDetail : List Char :=
  ("File too large. Maximum size: ".toList) ++
    (Nat.repr (MAX_FILE_SIZE / (1024 * 1024))).toList ++ ("MB".toList)

example : fileExt "notes.txt" = "txt".toList := rfl
example : fileExt "meeting.MP4" = "mp4".toList := rfl
example : typeNotSupportedDetail
    = ("File type not supported. Allowed: mp3, wav, mp4, mov, avi, webm".toList) := rfl
example : sizeTooLargeDetail = ("File too large. Maximum size: 100MB".toList) := rfl

/-! ## SampleAnalysisProvider: `create_sample_analysis` (backend.py lines
146-267), transliterated field by field. `now` models `datetime.now().isoformat()`. -/

/-- The `file_info` object of the sample analysis. -/
def sampleFileInfo (filename now : String) : Json :=
  .obj [
    ("filename", .str filename),
    ("processed_at", .str now),
    ("analysis_type", .str "AI-Powered Analysis")]

/-- The `segments` array of the sample analysis. -/
def sampleSegments : Json :=
  .arr [
    .obj [
      ("time_range", .str "00:00–01:30"),
      ("speaker", .str "Speaker A"),
      ("transcript", .str "Welcome everyone to today\x27s meeting. Let\x27s start by reviewing our agenda and objectives for this session. I hope everyone had a chance to review the materials I sent earlier."),
      ("sentiment", .str "Positive"),
      ("sentiment_reason", .str "Welcoming and organized tone, proactive preparation"),
      ("topic", .str "Meeting introduction and agenda review")],
    .obj [
      ("time_range", .str "01:30–03:00"),
      ("speaker", .str "Speaker B"),
      ("transcript", .str "Thank you for the introduction. I\x27d like to present our progress on the current project and discuss the challenges we\x27ve encountered. We\x27ve made significant headway, but there are some areas that need attention."),
      ("sentiment", .str "Neutral"),
      ("sentiment_reason", .str "Professional and informative presentation with balanced perspective"),
      ("topic", .str "Project progress update and challenge identification")],
    .obj [
      ("time_range", .str "03:00–04:30"),
      ("speaker", .str "Speaker A"),
      ("transcript", .str "That\x27s great progress, thank you for the detailed update. What are the next steps we need to take to address these challenges? Do we have the resources we need?"),
      ("sentiment", .str "Positive"),
      ("sentiment_reason", .str "Constructive and solution-focused, showing support"),
      ("topic", .str "Next steps discussion and resource planning")],
    .obj [
      ("time_range", .str "04:30–06:00"),
      ("speaker", .str "Speaker C"),
      ("transcript", .str "I suggest we prioritize the critical issues first and allocate additional resources where needed. We should also consider bringing in external expertise for the technical challenges."),
      ("sentiment", .str "Neutral"),
      ("sentiment_reason", .str "Strategic and analytical approach, practical suggestions"),
      ("topic", .str "Resource allocation and strategic planning")],
    .obj [
      ("time_range", .str "06:00–07:30"),
      ("speaker", .str "Speaker B"),
      ("transcript", .str "That sounds like a solid plan. I can coordinate with the external consultants and provide them with the necessary background information. When should we schedule the follow-up?"),
      ("sentiment", .str "Positive"),
      ("sentiment_reason", .str "Collaborative and action-oriented response"),
      ("topic", .str "Implementation planning and coordination")]]

/-- The `engagement_score` object of the sample analysis. -/
def sampleEngagement : Json :=
  .obj [
    ("score", .num 89),
    ("explanation", .str "Excellent engagement with active participation from all speakers. Clear communication, structured discussion flow, collaborative problem-solving approach, and concrete action planning. All participants contributed meaningfully to the discussion.")]

/-- The `meeting_summary` object of the sample analysis. -/
def sampleSummary : Json :=
  .obj [
    ("key_points", .arr [
      .str "Meeting agenda was clearly established and followed systematically",
      .str "Project progress was comprehensively reviewed with detailed updates",
      .str "Team collaboration appears highly effective with open communication",
      .str "Challenges were identified proactively and solutions proposed",
      .str "Resource allocation strategies were discussed and agreed upon",
      .str "External expertise integration was planned for technical challenges"]),
    ("decisions", .arr [
      .str "Continue with current project approach with strategic modifications",
      .str "Prioritize critical issues for immediate attention and resolution",
      .str "Allocate additional resources to challenging technical areas",
      .str "Engage external consultants for specialized technical expertise",
      .str "Schedule regular follow-up meetings for progress monitoring"]),
    ("open_questions", .arr [
      .str "What are the specific timeline requirements for each project phase?",
      .str "How should we prioritize the remaining tasks most effectively?",
      .str "What additional resources are needed for optimal project outcomes?",
      .str "How can we improve communication between all team members?",
      .str "What metrics should we use to measure project success?"]),
    ("risks_or_concerns", .arr [
      .str "Potential timeline delays if technical challenges persist",
      .str "Need for additional resources may impact overall budget constraints",
      .str "Communication gaps could affect project coordination and delivery",
      .str "External consultant integration may require additional time",
      .str "Resource allocation changes might affect other ongoing projects"])]

/-- The `action_items` array of the sample analysis. -/
def sampleActionItems : Json :=
  .arr [
    .obj [
      ("description", .str "Prepare detailed project timeline with specific milestones and deliverables"),
      ("owner", .str "Speaker A"),
      ("priority", .str "High")],
    .obj [
      ("description", .str "Schedule follow-up meeting for next week to review progress"),
      ("owner", .str "Speaker B"),
      ("priority", .str "Medium")],
    .obj [
      ("description", .str "Research additional resources and prepare budget impact analysis"),
      ("owner", .str "Speaker A"),
      ("priority", .str "Medium")],
    .obj [
      ("description", .str "Implement priority-based task management system for the team"),
      ("owner", .str "Speaker C"),
      ("priority", .str "High")],
    .obj [
      ("description", .str "Coordinate with external consultants and provide project background"),
      ("owner", .str "Speaker B"),
      ("priority", .str "High")]]

/-- The `improvement_suggestions` array of the sample analysis. -/
def sampleSuggestions : Json :=
  .arr [
    .str "Consider using visual aids and presentations for better engagement during updates",
    .str "Allocate specific time slots for each agenda item to maintain focus and efficiency",
    .str "Ensure all participants have equal opportunity to contribute ideas and feedback",
    .str "Document decisions and action items in real-time during meetings for clarity",
    .str "Implement regular check-ins to monitor progress on action items between meetings",
    .str "Create a shared project dashboard for real-time progress tracking",
    .str "Establish clear communication protocols for urgent issues and updates"]

/-- The top-level field list returned by `create_sample_analysis`. -/
def sampleKvs (filename now : String) : List (String × Json) :=
  [("file_info", sampleFileInfo filename now),
   ("segments", sampleSegments),
   ("engagement_score", sampleEngagement),
   ("meeting_summary", sampleSummary),
   ("action_items", sampleActionItems),
   ("improvement_suggestions", sampleSuggestions)]

/-- `create_sample_analysis(filename)` (backend.py lines 146-267), with the
`datetime.now().isoformat()` timestamp as the explicit `now` argument. -/
def create_sample_analysis (filename now : String) : Json :=
  .obj (sampleKvs filename now)

/-! ## ExternalAnalysisClient: `analyze_with_gemini` (backend.py lines
269-344) -/

/-- Processing states of the provider-side media file (`media_file.state.name`). -/
inductive FileState where
  | pending
  | active
  | failed
deriving DecidableEq, Repr

/-- Environment capturing the externally determined behaviour of one
`analyze_with_gemini` call: whether `genai.upload_file` succeeds, the
processing state observed at each elapsed wait time, whether
`model.generate_content` (including `response.text` access) succeeds, and
the returned raw text (`none` models a `None`/falsy `response.text`). -/
structure ProviderEnv where
  uploadOk : Bool
  fileState : Nat → FileState
  generateOk : Bool
  responseText : Option String

/-- Outcome of a Python computation: a returned value or a raised
exception. -/
inductive PyResult (α : Type) where
  | ok (a : α)
  | exn (msg : String)

/-- A computation over the temp-file state (`true` = the scoped temporary
file currently exists on disk). -/
def TmpEff (α : Type) : Type := Bool → PyResult α × Bool

/-- Python `try: body finally: fin`: run the finalizer on every exit path,
re-raising the body's exception afterwards. -/
def tryFinallyEff {α : Type} (body : TmpEff α) (fin : TmpEff Unit) : TmpEff α :=
  fun s =>
    match body s with
    | (.ok a, s1) =>
      match fin s1 with
      | (.ok _, s2) => (.ok a, s2)
      | (.exn m, s2) => (.exn m, s2)
    | (.exn m, s1) =>
      match fin s1 with
      | (.ok _, s2) => (.exn m, s2)
      | (.exn m2, s2) => (.exn m2, s2)

/-- `tempfile.NamedTemporaryFile(delete=False)` plus the write of the upload
bytes: the temp file comes to exist. -/
def createTempEff : TmpEff Unit := fun _ => (.ok (), true)

/-- The `finally` block (backend.py lines 335-340): `os.unlink` wrapped in
`try/except: pass`; the temp file is removed. -/
def unlinkEff : TmpEff Unit := fun _ => (.ok (), false)

/-- The polling loop (backend.py lines 286-291):
`while media_file.state.name != "ACTIVE" and wait_time < max_wait:` with
`await asyncio.sleep(2); wait_time += 2; media_file = genai.get_file(...)`.
Returns the final observed state and the final `wait_time`. -/
def pollLoop (fileState : Nat → FileState) (st : FileState) (waitTime : Nat) :
    FileState × Nat :=
  if h : st ≠ FileState.active ∧ waitTime < 120 then
    pollLoop fileState (fileState (waitTime + 2)) (waitTime + 2)
  else (st, waitTime)
termination_by 120 - waitTime
decreasing_by omega

/-- The body of the inner `try` (backend.py lines 280-333): upload, poll,
timeout check, generation, emptiness check, normalization and `json.loads`.
`.ok none` models the `return None` paths, `.exn` models raised
exceptions (caught by the outer `except`). -/
def geminiInner (env : ProviderEnv) : TmpEff (Option Json) := fun s =>
  if !env.uploadOk then (.exn "upload failed", s)
  else
    let st := (pollLoop env.fileState (env.fileState 0) 0).1
    if st ≠ FileState.active then (.ok none, s)
    else if !env.generateOk then (.exn "generation failed", s)
    else
      match env.responseText with
      | none => (.ok none, s)
      | some txt =>
        if txt = "" then (.ok none, s)
        else
          match jsonParse (normalizeText txt.toList) with
          | none => (.exn "json decode error", s)
          | some v => (.ok (some v), s)

/-- The outer `try` body of `analyze_with_gemini`: create the temp file, then
run the inner body with the guaranteed `finally: os.unlink`. -/
def geminiTry (env : ProviderEnv) : TmpEff (Option Json) := fun s =>
  let s1 := (createTempEff s).2
  tryFinallyEff (geminiInner env) unlinkEff s1

/-- `analyze_with_gemini` (backend.py lines 269-344): the outer
`except Exception` turns any raised exception into a `None` return. The
second component reports whether the scoped temp file still exists after the
call. -/
def analyze_with_gemini (env : ProviderEnv) : Option Json × Bool :=
  match geminiTry env false with
  | (.ok r, s) => (r, s)
  | (.exn _, s) => (none, s)

/-! ## HTTP surface of the two endpoints (backend.py lines 411-532) -/

/-- The response of an endpoint: a 200 JSON body, or an `HTTPException`
carrying a status code and a detail message. -/
inductive HttpResponse where
  | ok (body : Json)
  | httpError (status : Nat) (detail : List Char)

/-- Whether a response is an HTTP 400 error. -/
def isStatus400 : HttpResponse → Bool
  | .httpError 400 _ => true
  | _ => false

/-- The fallback response (backend.py lines 522-526): the sample analysis
with `analysis_type` set to "Sample Analysis (AI Unavailable)". -/
def fallbackResponse (filename now : String) : HttpResponse :=
  match (create_sample_analysis filename now).setKey "analysis_type"
      (.str "Sample Analysis (AI Unavailable)") with
  | some b => .ok b
  | none => .httpError 500 ("Analysis failed".toList)

/-- The fallback body as a JSON value. -/
def fallbackBodyJson (filename now : String) : Json :=
  .obj (setAssoc (sampleKvs filename now) "analysis_type"
    (.str "Sample Analysis (AI Unavailable)"))

/-- Outcome of one `/analyze` request: the HTTP response, and whether the
external provider pipeline (`analyze_with_gemini`) was invoked at all. -/
structure AnalyzeOutcome where
  response : HttpResponse
  providerCalled : Bool

/-- `analyze_file`, the `/analyze` endpoint (backend.py lines 467-532),
after CORS preflight handling: filename/extension/size validation, then the
real-AI attempt (`if model:` modelled by `modelAvailable`), with the
`except Exception` around it falling through to the sample fallback, whose
`if result:` truthiness test and `result["analysis_type"]` assignment are
modelled exactly. `extOrder` is the process's iteration order of the
`ALLOWED_EXTENSIONS` set, used only to render the unsupported-type message
(membership in a set does not depend on it). -/
def analyze_file (modelAvailable : Bool) (env : ProviderEnv)
    (extOrder : List (List Char)) (filename : String) (size : Nat)
    (now : String) : AnalyzeOutcome :=
  if filename = "" then ⟨.httpError 400 ("No file provided".toList), false⟩
  else if fileExt filename ∉ allowedExtensions then
    ⟨.httpError 400 (typeNotSupportedDetailWith extOrder), false⟩
  else if size > MAX_FILE_SIZE then ⟨.httpError 400 sizeTooLargeDetail, false⟩
  else if modelAvailable then
    match (analyze_with_gemini env).1 with
    | some result =>
      if jsonTruthy result then
        match result.setKey "analysis_type" (.str "Real AI Analysis") with
        | some tagged => ⟨.ok tagged, true⟩
        | none => ⟨fallbackResponse filename now, true⟩
      else ⟨fallbackResponse filename now, true⟩
    | none => ⟨fallbackResponse filename now, true⟩
  else ⟨fallbackResponse filename now, false⟩

/-- `upload_file`, the `/upload` endpoint (backend.py lines 411-465), after
CORS preflight handling: the same validation chain, then the upload receipt;
`file_id` models the generated `uuid.uuid4()`; `extOrder` is the process's
iteration order of the `ALLOWED_EXTENSIONS` set. -/
def upload_file (extOrder : List (List Char)) (filename : String) (size : Nat)
    (fileId : String) : HttpResponse :=
  if filename = "" then .httpError 400 ("No filename provided".toList)
  else if fileExt filename ∉ allowedExtensions then
    .httpError 400 (typeNotSupportedDetailWith extOrder)
  else if size > MAX_FILE_SIZE then .httpError 400 sizeTooLargeDetail
  else
    .ok (.obj [
      ("file_id", .str fileId),
      ("filename", .str filename),
      ("size", .num (Int.ofNat size)),
      ("status", .str "uploaded"),
      ("message", .str "File uploaded successfully")])

/-! ## Auxiliary definitions for the statements -/

/-- Removal of a key from an association list. -/
def removeKey : List (String × Json) → String → List (String × Json)
  | [], _ => []
  | (k', v) :: rest, k =>
    if k' = k then removeKey rest k else (k', v) :: removeKey rest k

/-- Erase the `processed_at` field of a `file_info`-like object. -/
def scrubFileInfo : Json → Json
  | .obj fields => .obj (removeKey fields "processed_at")
  | j => j

/-- Erase the `file_info.processed_at` timestamp of an analysis payload. -/
def scrubProcessedAt : Json → Json
  | .obj fields =>
    .obj (fields.map (fun p => if p.1 = "file_info" then (p.1, scrubFileInfo p.2) else p))
  | j => j

/-- Failure of the external provider pipeline, in the taxonomy of the spec:
upload failure, processing timeout, generation failure, empty response, or a
response whose normalized text does not parse as JSON. -/
def providerFails (env : ProviderEnv) : Prop :=
  env.uploadOk = false ∨
  (pollLoop env.fileState (env.fileState 0) 0).1 ≠ FileState.active ∨
  env.generateOk = false ∨
  env.responseText = none ∨
  env.responseText = some "" ∨
  (∃ txt, env.responseText = some txt ∧ jsonParse (normalizeText txt.toList) = none)

/-- A well-formed fenced wrapping of a JSON text, as in the spec's
round-trip scenario: "```json", a newline, the text, a newline, "```". -/
def fenceJson (t : List Char) : List Char :=
  ("```json\n".toList) ++ t ++ ("\n```".toList)

/-- An admissible iteration order of the `ALLOWED_EXTENSIONS` set other
than the literal order (a permutation; CPython set iteration is
hash-randomized per process). -/
def extOrderAlt : List (List Char) :=
  ["wav".toList, "mp3".toList, "mp4".toList, "mov".toList, "avi".toList, "webm".toList]

/-- An environment whose provider is never exercised (used with
`modelAvailable = false`). -/
def envNeutral : ProviderEnv :=
  ⟨true, fun _ => FileState.active, true, none⟩

/-- An environment whose provider upload raises. -/
def envUploadFail : ProviderEnv :=
  ⟨false, fun _ => FileState.pending, true, none⟩

/-- An environment whose provider job never becomes ACTIVE. -/
def envTimeout : ProviderEnv :=
  ⟨true, fun _ => FileState.pending, true, none⟩

/-- An environment whose provider answers with the empty JSON object. -/
def envEmptyObj : ProviderEnv :=
  ⟨true, fun _ => FileState.active, true, some "\x7b\x7d"⟩

/-- An environment whose provider answers with a schema-free JSON object. -/
def envFoo : ProviderEnv :=
  ⟨true, fun _ => FileState.active, true, some "\x7b\"foo\": 1\x7d"⟩

/-- The body `/analyze` returns in the environment `envFoo`. -/
def fooBody : Json :=
  .obj [("foo", .num 1), ("analysis_type", .str "Real AI Analysis")]

/-! ## Helper lemmas -/

lemma lookup_setAssoc_self (kvs : List (String × Json)) (k : String) (v : Json) :
    lookupKey (setAssoc kvs k v) k = some v := by
  induction kvs with
  | nil => simp [setAssoc, lookupKey]
  | cons p rest ih =>
    obtain ⟨k', v'⟩ := p
    by_cases h : k' = k
    · simp [setAssoc, lookupKey, h]
    · simp [setAssoc, lookupKey, h, ih]

lemma lookup_setAssoc_ne (kvs : List (String × Json)) (k k' : String) (v : Json)
    (h : k' ≠ k) : lookupKey (setAssoc kvs k v) k' = lookupKey kvs k' := by
  induction kvs with
  | nil => simp [setAssoc, lookupKey, Ne.symm h]
  | cons p rest ih =>
    obtain ⟨k1, v1⟩ := p
    by_cases h1 : k1 = k
    · subst h1
      rw [setAssoc, if_pos rfl, lookupKey, lookupKey]
      rw [if_neg (fun hh => h hh.symm), if_neg (fun hh => h hh.symm)]
    · rw [setAssoc, if_neg h1, lookupKey, lookupKey]
      by_cases h2 : k1 = k'
      · rw [if_pos h2, if_pos h2]
      · rw [if_neg h2, if_neg h2]
        exact ih

lemma setKey_some {j : Json} {k : String} {v j2 : Json}
    (h : j.setKey k v = some j2) :
    ∃ fields, j = .obj fields ∧ j2 = .obj (setAssoc fields k v) := by
  cases j <;> simp [Json.setKey] at h
  exact ⟨_, rfl, h.symm⟩

/-- If the provider job is never observed ACTIVE, the polling loop exits
with a non-ACTIVE state and a final wait time of at most `max w 121`. -/
lemma pollLoop_never_active (f : Nat → FileState) (hf : ∀ w, f w ≠ .active) :
    ∀ n st w, 120 ≤ w + n → st ≠ .active →
      (pollLoop f st w).1 ≠ .active ∧ (pollLoop f st w).2 ≤ max w 121 := by
  intro n
  induction n with
  | zero =>
    intro st w hw hst
    rw [pollLoop]
    rw [dif_neg (by omega)]
    exact ⟨hst, by simp⟩
  | succ n ih =>
    intro st w hw hst
    rw [pollLoop]
    by_cases hlt : w < 120
    · rw [dif_pos ⟨hst, hlt⟩]
      have h2 := ih (f (w + 2)) (w + 2) (by omega) (hf (w + 2))
      exact ⟨h2.1, le_trans h2.2 (by omega)⟩
    · rw [dif_neg (by omega)]
      exact ⟨hst, by simp⟩

/-- If the very first observed state is ACTIVE the loop exits immediately. -/
lemma pollLoop_start_active (f : Nat → FileState) (h : f 0 = .active) :
    pollLoop f (f 0) 0 = (.active, 0) := by
  rw [pollLoop, h]
  rw [dif_neg (by simp)]

/-- Normal form of the result of `analyze_with_gemini` as a function of the
environment. -/
lemma gemini_result_char (env : ProviderEnv) :
    (analyze_with_gemini env).1 =
      if env.uploadOk then
        if (pollLoop env.fileState (env.fileState 0) 0).1 = FileState.active then
          if env.generateOk then
            match env.responseText with
            | none => none
            | some txt =>
              if txt = "" then none
              else jsonParse (normalizeText txt.toList)
          else none
        else none
      else none := by
  obtain ⟨u, fs, g, rt⟩ := env
  simp only [analyze_with_gemini, geminiTry, createTempEff, tryFinallyEff, geminiInner,
    unlinkEff]
  cases u
  · simp
  · by_cases hst : (pollLoop fs (fs 0) 0).1 = FileState.active
    · cases g
      · simp [hst]
      · cases rt with
        | none => simp [hst]
        | some txt =>
          by_cases he : txt = ""
          · simp [hst, he]
          · cases hj : jsonParse (normalizeText txt.data) <;>
              simp [hst, he, String.toList, hj]
    · simp [hst]

/-- If the state handed to the loop is already ACTIVE, the loop exits at
once. -/
lemma pollLoop_active (f : Nat → FileState) (st : FileState) (h : st = .active)
    (w : Nat) : pollLoop f st w = (st, w) := by
  rw [pollLoop, dif_neg (by simp [h])]

lemma findChar_eq_none {cs : List Char} {c : Char} (h : c ∉ cs) :
    findChar cs c = none := by
  induction cs with
  | nil => rfl
  | cons x xs ih =>
    rw [List.mem_cons, not_or] at h
    rw [findChar, if_neg (fun he => h.1 he.symm), ih h.2]
    rfl

lemma rfindChar_eq_none {cs : List Char} {c : Char} (h : c ∉ cs) :
    rfindChar cs c = none := by
  unfold rfindChar
  rw [findChar_eq_none (by simpa using h)]

lemma isPrefixOf_append_self (l r : List Char) : l.isPrefixOf (l ++ r) = true := by
  induction l with
  | nil => cases r <;> rfl
  | cons a as ih => simp [List.isPrefixOf, ih]

lemma drop_len_append (l r : List Char) : (l ++ r).drop l.length = r := by
  induction l with
  | nil => rfl
  | cons a as ih => simp [ih]

lemma take_len_append (l r : List Char) : (l ++ r).take l.length = l := by
  induction l with
  | nil => rfl
  | cons a as ih => simp [ih]

/-- `providerFails` makes `analyze_with_gemini` return `None`. -/
lemma providerFails_none (env : ProviderEnv) (h : providerFails env) :
    (analyze_with_gemini env).1 = none := by
  rw [gemini_result_char]
  rcases h with h | h | h | h | h | ⟨txt, ht, hj⟩
  · simp [h]
  · split_ifs <;> simp_all
  · split_ifs <;> simp_all
  · split_ifs <;> simp_all
  · split_ifs <;> simp_all
  · by_cases he : txt = ""
    · split_ifs <;> simp_all
    · split_ifs <;> simp_all

/-- The fallback path of `analyze_file`: validated input plus a `None`
provider result (or no configured model) yields the tagged sample body. -/
lemma fallback_of_gemini_none (m : Bool) (env : ProviderEnv)
    (extOrder : List (List Char)) (filename : String) (size : Nat) (now : String)
    (hfn : filename ≠ "") (hext : fileExt filename ∈ allowedExtensions)
    (hsize : size ≤ MAX_FILE_SIZE)
    (hnone : (analyze_with_gemini env).1 = none ∨ m = false) :
    (analyze_file m env extOrder filename size now).response =
      .ok (fallbackBodyJson filename now) := by
  have hfb : fallbackResponse filename now = .ok (fallbackBodyJson filename now) := rfl
  unfold analyze_file
  rw [if_neg hfn, if_neg (not_not_intro hext),
    if_neg (by omega : ¬size > MAX_FILE_SIZE)]
  rcases hnone with hn | hm
  · cases m
    · simp [hfb]
    · simp [hn, hfb]
  · subst hm
    simp [hfb]

/-- The fallback body always carries the provenance tag and the five
schema keys. -/
lemma fallbackBody_keys (filename now : String) :
    (fallbackBodyJson filename now).getKey "analysis_type"
        = some (.str "Sample Analysis (AI Unavailable)") ∧
    (fallbackBodyJson filename now).hasKey "segments" = true ∧
    (fallbackBodyJson filename now).hasKey "engagement_score" = true ∧
    (fallbackBodyJson filename now).hasKey "meeting_summary" = true ∧
    (fallbackBodyJson filename now).hasKey "action_items" = true ∧
    (fallbackBodyJson filename now).hasKey "improvement_suggestions" = true :=
  ⟨rfl, rfl, rfl, rfl, rfl, rfl⟩

/-- A fenced text has no surrounding whitespace, so `strip` keeps it. -/
lemma pyStrip_fence (t : List Char) : pyStrip (fenceJson t) = fenceJson t := by
  have hcons : fenceJson t = '`' :: ((("``json\n".toList) ++ t) ++ ("\n```".toList)) := rfl
  have h1 : (fenceJson t).dropWhile isWs = fenceJson t := by
    rw [hcons]
    rfl
  have hrev : (fenceJson t).reverse
      = '`' :: '`' :: '`' :: '\n' :: (t.reverse ++ ("```json\n".toList).reverse) := by
    rw [show fenceJson t = ("```json\n".toList) ++ (t ++ ("\n```".toList)) from rfl]
    rw [List.reverse_append, List.reverse_append]
    rfl
  have h2 : ((fenceJson t).reverse).dropWhile isWs = (fenceJson t).reverse := by
    rw [hrev]
    rfl
  unfold pyStrip
  rw [h1, h2, List.reverse_reverse]

/-- The fence cleanup peels a fenced wrapping down to the inner text plus
one newline on each side. -/
lemma cleanup_fence (t : List Char) :
    cleanupJson (fenceJson t) = '\n' :: (t ++ ('\n' :: [])) := by
  have hshape : fenceJson t
      = ("```json".toList) ++ ('\n' :: (t ++ ('\n' :: '`' :: '`' :: '`' :: []))) := rfl
  have h1 : cleanupFence1 (fenceJson t)
      = '\n' :: (t ++ ('\n' :: '`' :: '`' :: '`' :: [])) := by
    unfold cleanupFence1
    rw [hshape, if_pos (isPrefixOf_append_self _ _)]
    exact drop_len_append ("```json".toList) _
  have h2 : cleanupFence2 ('\n' :: (t ++ ('\n' :: '`' :: '`' :: '`' :: [])))
      = '\n' :: (t ++ ('\n' :: '`' :: '`' :: '`' :: [])) := by
    unfold cleanupFence2
    rw [if_neg (fun h => Bool.noConfusion h)]
  have hgrp : ('\n' : Char) :: (t ++ ('\n' :: '`' :: '`' :: '`' :: []))
      = (('\n' :: t) ++ ('\n' :: [])) ++ ('`' :: '`' :: '`' :: []) := by
    rw [List.append_assoc]
    rfl
  have h3 : cleanupFence3 ('\n' :: (t ++ ('\n' :: '`' :: '`' :: '`' :: [])))
      = '\n' :: (t ++ ('\n' :: [])) := by
    unfold cleanupFence3
    rw [hgrp]
    have hsuf : ("```".toList).isSuffixOf
        ((('\n' :: t) ++ ('\n' :: [])) ++ ('`' :: '`' :: '`' :: [])) = true := by
      show (("```".toList).reverse).isPrefixOf
          (((('\n' :: t) ++ ('\n' :: [])) ++ ('`' :: '`' :: '`' :: [])).reverse) = true
      rw [List.reverse_append]
      exact isPrefixOf_append_self _ _
    rw [if_pos hsuf]
    have hlen : ((('\n' :: t) ++ ('\n' :: [])) ++ ('`' :: '`' :: '`' :: [])).length - 3
        = (('\n' :: t) ++ ('\n' :: [])).length := by
      simp
    rw [hlen, take_len_append]
    rfl
  unfold cleanupJson
  rw [h1, h2, h3]

/-- The brace slice recovers exactly the inner object text. -/
lemma slice_fence (mid : List Char) :
    sliceBraces ('\n' :: (('{' :: (mid ++ ('}' :: []))) ++ ('\n' :: [])))
      = '{' :: (mid ++ ('}' :: [])) := by
  have hf : findChar ('\n' :: (('{' :: (mid ++ ('}' :: []))) ++ ('\n' :: []))) '{'
      = some 1 := rfl
  have hrevshape : (('\n' :: (('{' :: (mid ++ ('}' :: []))) ++ ('\n' :: []))) :
        List Char).reverse
      = '\n' :: '}' :: (mid.reverse ++ ('{' :: '\n' :: [])) := by
    simp
  have hr : rfindChar ('\n' :: (('{' :: (mid ++ ('}' :: []))) ++ ('\n' :: []))) '}'
      = some (('{' :: (mid ++ ('}' :: []))).length) := by
    unfold rfindChar
    rw [hrevshape]
    rw [show findChar ('\n' :: '}' :: (mid.reverse ++ ('{' :: '\n' :: []))) '}'
        = some 1 from rfl]
    simp
  unfold sliceBraces
  rw [hf, hr]
  show ((('{' :: (mid ++ ('}' :: []))) ++ ('\n' :: [])).take
      (('{' :: (mid ++ ('}' :: []))).length + 1 - 1)) = '{' :: (mid ++ ('}' :: []))
  rw [show ('{' :: (mid ++ ('}' :: []))).length + 1 - 1
      = ('{' :: (mid ++ ('}' :: []))).length from rfl]
  exact take_len_append _ _

/-- The full normalization applied to a fenced object text returns exactly
the inner text. -/
lemma normalizeText_fence (mid : List Char) :
    normalizeText (fenceJson ('{' :: (mid ++ ('}' :: []))))
      = '{' :: (mid ++ ('}' :: [])) := by
  unfold normalizeText
  rw [pyStrip_fence, cleanup_fence, slice_fence]

/-! ## Claim theorems -/

/-- C3 (amended): for every upload whose lowercased filename extension is
outside the allow-set, both `/analyze` and `/upload` return HTTP 400 before
any external provider call, with detail message "File type not supported.
Allowed: " followed by the allow-set entries in the process's set-iteration
order, ", "-separated; under the source-literal order the message for
`notes.txt` is exactly "File type not supported. Allowed: mp3, wav, mp4,
mov, avi, webm". The exact byte content is not an invariant of the program,
because CPython set iteration is hash-randomized. -/
theorem C3_unsupported_extension_rejected (m : Bool) (env : ProviderEnv)
    (extOrder : List (List Char)) (filename : String) (size : Nat)
    (now fileId : String)
    (hfn : filename ≠ "") (hext : fileExt filename ∉ allowedExtensions) :
    (analyze_file m env extOrder filename size now).response
        = .httpError 400 (typeNotSupportedDetailWith extOrder) ∧
    (analyze_file m env extOrder filename size now).providerCalled = false ∧
    upload_file extOrder filename size fileId
        = .httpError 400 (typeNotSupportedDetailWith extOrder) ∧
    typeNotSupportedDetailWith allowedExtensions
        = ("File type not supported. Allowed: mp3, wav, mp4, mov, avi, webm".toList) := by
  unfold analyze_file upload_file
  rw [if_neg hfn, if_neg hfn, if_pos hext, if_pos hext]
  exact ⟨rfl, rfl, rfl, rfl⟩

/-- Counterexample to C3 as stated: under the admissible set-iteration order
`extOrderAlt` (a permutation of the literal, as hash randomization can
produce), the 400 body for `notes.txt` is not the exact message the claim
asserts. -/
theorem C3_counterexample :
    extOrderAlt.Perm allowedExtensions ∧
    (analyze_file false envNeutral extOrderAlt "notes.txt" 4 "T").response
        = .httpError 400 (typeNotSupportedDetailWith extOrderAlt) ∧
    upload_file extOrderAlt "notes.txt" 4 "id0"
        = .httpError 400 (typeNotSupportedDetailWith extOrderAlt) ∧
    typeNotSupportedDetailWith extOrderAlt
        ≠ ("File type not supported. Allowed: mp3, wav, mp4, mov, avi, webm".toList) :=
  ⟨by decide, rfl, rfl, by decide⟩

/-- Witness for C3 (amended): the spec's `notes.txt` scenario under the
source-literal iteration order. -/
theorem C3_witness :
    "notes.txt" ≠ "" ∧ fileExt "notes.txt" ∉ allowedExtensions ∧
    ((analyze_file false envNeutral allowedExtensions "notes.txt" 4 "T").response
        = .httpError 400 (typeNotSupportedDetailWith allowedExtensions) ∧
     (analyze_file false envNeutral allowedExtensions "notes.txt" 4 "T").providerCalled
        = false ∧
     upload_file allowedExtensions "notes.txt" 4 "id0"
        = .httpError 400 (typeNotSupportedDetailWith allowedExtensions) ∧
     typeNotSupportedDetailWith allowedExtensions
        = ("File type not supported. Allowed: mp3, wav, mp4, mov, avi, webm".toList)) :=
  ⟨by decide, by decide,
    C3_unsupported_extension_rejected false envNeutral allowedExtensions
      "notes.txt" 4 "T" "id0" (by decide) (by decide)⟩

/-- C7: every upload exceeding the 100 MiB ceiling is answered with HTTP 400
by both endpoints, and no external provider call is performed. -/
theorem C7_oversize_rejected (m : Bool) (env : ProviderEnv)
    (extOrder : List (List Char)) (filename : String) (size : Nat)
    (now fileId : String)
    (hsize : size > MAX_FILE_SIZE) :
    isStatus400 (analyze_file m env extOrder filename size now).response = true ∧
    (analyze_file m env extOrder filename size now).providerCalled = false ∧
    isStatus400 (upload_file extOrder filename size fileId) = true := by
  unfold analyze_file upload_file
  by_cases hfn : filename = ""
  · rw [if_pos hfn, if_pos hfn]
    exact ⟨rfl, rfl, rfl⟩
  · rw [if_neg hfn, if_neg hfn]
    by_cases hext : fileExt filename ∉ allowedExtensions
    · rw [if_pos hext, if_pos hext]
      exact ⟨rfl, rfl, rfl⟩
    · rw [if_neg hext, if_neg hext, if_pos hsize, if_pos hsize]
      exact ⟨rfl, rfl, rfl⟩

/-- Witness for C7: a file one byte over the limit. -/
theorem C7_witness :
    104857601 > MAX_FILE_SIZE ∧
    (isStatus400 (analyze_file true envNeutral allowedExtensions
          "movie.mp4" 104857601 "T").response = true ∧
     (analyze_file true envNeutral allowedExtensions
          "movie.mp4" 104857601 "T").providerCalled = false ∧
     isStatus400 (upload_file allowedExtensions "movie.mp4" 104857601 "id1") = true) :=
  ⟨by decide,
    C7_oversize_rejected true envNeutral allowedExtensions "movie.mp4" 104857601
      "T" "id1" (by decide)⟩

/-- C8: the scoped temporary file of the external analysis step is deleted
on every exit path — normal return, processing timeout, and any raised
exception — so no temporary file remains after `analyze_with_gemini`
completes, whatever the provider environment. -/
theorem C8_temp_file_always_deleted (env : ProviderEnv) :
    (analyze_with_gemini env).2 = false := by
  unfold analyze_with_gemini geminiTry tryFinallyEff createTempEff unlinkEff
  rcases hg : geminiInner env true with ⟨r, s⟩
  cases r <;> simp [hg]

/-- C9: the sample-analysis generator is a pure total function of the
filename and the clock; two runs differ at most in `file_info.processed_at`,
which holds exactly the run's timestamp. -/
theorem C9_sample_idempotent_modulo_timestamp (filename t1 t2 : String) :
    scrubProcessedAt (create_sample_analysis filename t1)
        = scrubProcessedAt (create_sample_analysis filename t2) ∧
    (create_sample_analysis filename t1).getKey "file_info"
        = some (sampleFileInfo filename t1) ∧
    (sampleFileInfo filename t1).getKey "processed_at" = some (.str t1) :=
  ⟨rfl, rfl, rfl⟩

/-- C2: for every validated upload, any failure of the external provider
pipeline — upload failure, processing timeout, generation failure, empty
response, or malformed JSON — and likewise an unconfigured model, is never
surfaced as an error status: `/analyze` answers 200 with the sample analysis
tagged "Sample Analysis (AI Unavailable)". -/
theorem C2_provider_failure_falls_back (m : Bool) (env : ProviderEnv)
    (extOrder : List (List Char)) (filename : String) (size : Nat) (now : String)
    (hfn : filename ≠ "") (hext : fileExt filename ∈ allowedExtensions)
    (hsize : size ≤ MAX_FILE_SIZE)
    (hfail : providerFails env ∨ m = false) :
    (analyze_file m env extOrder filename size now).response
      = .ok (fallbackBodyJson filename now) := by
  apply fallback_of_gemini_none m env extOrder filename size now hfn hext hsize
  rcases hfail with hf | hm
  · exact Or.inl (providerFails_none env hf)
  · exact Or.inr hm

/-- Witness for C2: a provider whose upload step raises. -/
theorem C2_witness :
    providerFails envUploadFail ∧
    (analyze_file true envUploadFail allowedExtensions "meeting.mp4" 10 "T").response
      = .ok (fallbackBodyJson "meeting.mp4" "T") :=
  ⟨Or.inl rfl,
    C2_provider_failure_falls_back true envUploadFail allowedExtensions
      "meeting.mp4" 10 "T" (by decide) (by decide) (by decide) (Or.inl (Or.inl rfl))⟩

/-- C5: if the provider job is never observed ACTIVE, the polling loop
(2-time-unit interval, 120-time-unit budget) stops with a total wait within
the budget plus one interval, and the validated request ends in the fallback
path. -/
theorem C5_poll_timeout_bounded_fallback (env : ProviderEnv)
    (extOrder : List (List Char)) (filename : String) (size : Nat) (now : String)
    (hnever : ∀ w, env.fileState w ≠ FileState.active)
    (hfn : filename ≠ "") (hext : fileExt filename ∈ allowedExtensions)
    (hsize : size ≤ MAX_FILE_SIZE) :
    (pollLoop env.fileState (env.fileState 0) 0).2 ≤ 120 + 2 ∧
    (analyze_file true env extOrder filename size now).response
      = .ok (fallbackBodyJson filename now) := by
  have hp := pollLoop_never_active env.fileState hnever 120 (env.fileState 0) 0
    (by omega) (hnever 0)
  refine ⟨le_trans hp.2 (by omega), ?_⟩
  apply fallback_of_gemini_none true env extOrder filename size now hfn hext hsize
  refine Or.inl ?_
  rw [gemini_result_char]
  by_cases hu : env.uploadOk <;> simp [hu, hp.1]

/-- Witness for C5: a provider whose job stays PENDING forever. -/
theorem C5_witness :
    (∀ w, envTimeout.fileState w ≠ FileState.active) ∧
    ((pollLoop envTimeout.fileState (envTimeout.fileState 0) 0).2 ≤ 120 + 2 ∧
     (analyze_file true envTimeout allowedExtensions "meeting.mp4" 10 "T").response
       = .ok (fallbackBodyJson "meeting.mp4" "T")) :=
  ⟨fun _ h => FileState.noConfusion h,
    C5_poll_timeout_bounded_fallback envTimeout allowedExtensions "meeting.mp4" 10 "T"
      (fun _ h => FileState.noConfusion h) (by decide) (by decide) (by decide)⟩

/-- C10: when the provider's raw text parses to a falsy JSON value — in
particular the empty object — `/analyze` discards the parsed result (the
orchestrator tests truthiness, not parse success) and returns the tagged
sample fallback. -/
theorem C10_falsy_parse_falls_back (env : ProviderEnv)
    (extOrder : List (List Char)) (filename : String) (size : Nat) (now : String)
    (v : Json)
    (hfn : filename ≠ "") (hext : fileExt filename ∈ allowedExtensions)
    (hsize : size ≤ MAX_FILE_SIZE)
    (hres : (analyze_with_gemini env).1 = some v)
    (hfalsy : jsonTruthy v = false) :
    (analyze_file true env extOrder filename size now).response
      = .ok (fallbackBodyJson filename now) := by
  have hfb : fallbackResponse filename now = .ok (fallbackBodyJson filename now) := rfl
  unfold analyze_file
  rw [if_neg hfn, if_neg (not_not_intro hext),
    if_neg (by omega : ¬size > MAX_FILE_SIZE)]
  simp [hres, hfalsy, hfb]

/-- Witness for C10: the provider answers with the empty object. -/
theorem C10_witness :
    (analyze_with_gemini envEmptyObj).1 = some (Json.obj []) ∧
    jsonTruthy (Json.obj []) = false ∧
    (analyze_file true envEmptyObj allowedExtensions "meeting.mp4" 10 "T").response
      = .ok (fallbackBodyJson "meeting.mp4" "T") := by
  have hp : pollLoop envEmptyObj.fileState (envEmptyObj.fileState 0) 0
      = (FileState.active, 0) :=
    pollLoop_active envEmptyObj.fileState (envEmptyObj.fileState 0) rfl 0
  have hres : (analyze_with_gemini envEmptyObj).1 = some (Json.obj []) := by
    rw [gemini_result_char, hp]
    rfl
  exact ⟨hres, rfl,
    C10_falsy_parse_falls_back envEmptyObj allowedExtensions "meeting.mp4" 10 "T"
      (Json.obj []) (by decide) (by decide) (by decide) hres rfl⟩

/-- Every 200 body of `/analyze` is either the tagged fallback body or the
provider's parsed object with `analysis_type` set. -/
lemma analyze_file_ok_cases (m : Bool) (env : ProviderEnv)
    (extOrder : List (List Char)) (filename : String)
    (size : Nat) (now : String) (body : Json)
    (hok : (analyze_file m env extOrder filename size now).response = .ok body) :
    body = fallbackBodyJson filename now ∨
    ∃ fields, body = .obj (setAssoc fields "analysis_type" (.str "Real AI Analysis")) := by
  have hfb : fallbackResponse filename now = .ok (fallbackBodyJson filename now) := rfl
  have hofb : ∀ h : fallbackResponse filename now = .ok body,
      body = fallbackBodyJson filename now := by
    intro h
    rw [hfb] at h
    injection h with h
    exact h.symm
  unfold analyze_file at hok
  split at hok
  · exact absurd hok (by simp)
  split at hok
  · exact absurd hok (by simp)
  split at hok
  · exact absurd hok (by simp)
  split at hok
  · split at hok
    · rename_i result heq
      split at hok
      · split at hok
        · rename_i tagged hsk
          obtain ⟨fields, hvf, htg⟩ := setKey_some hsk
          have hok2 : HttpResponse.ok tagged = .ok body := hok
          injection hok2 with hok2
          exact Or.inr ⟨fields, hok2 ▸ htg⟩
        · exact Or.inl (hofb hok)
      · exact Or.inl (hofb hok)
    · exact Or.inl (hofb hok)
  · exact Or.inl (hofb hok)

/-- C1 (amended): every 200 `/analyze` response contains `analysis_type`;
bodies tagged "Sample Analysis (AI Unavailable)" (the fallback path) also
contain the five schema keys; real-AI bodies are the provider's parsed
object plus `analysis_type`, so the five keys are present only if the
provider supplied them. -/
theorem C1_response_keys (m : Bool) (env : ProviderEnv)
    (extOrder : List (List Char)) (filename : String)
    (size : Nat) (now : String) (body : Json)
    (hok : (analyze_file m env extOrder filename size now).response = .ok body) :
    body.hasKey "analysis_type" = true ∧
    (body.getKey "analysis_type" = some (.str "Sample Analysis (AI Unavailable)") →
      body.hasKey "segments" = true ∧
      body.hasKey "engagement_score" = true ∧
      body.hasKey "meeting_summary" = true ∧
      body.hasKey "action_items" = true ∧
      body.hasKey "improvement_suggestions" = true) := by
  rcases analyze_file_ok_cases m env extOrder filename size now body hok
    with hb | ⟨fields, hb⟩
  · subst hb
    have hk := fallbackBody_keys filename now
    refine ⟨?_, fun _ => ⟨hk.2.1, hk.2.2.1, hk.2.2.2.1, hk.2.2.2.2.1, hk.2.2.2.2.2⟩⟩
    unfold Json.hasKey
    rw [hk.1]
    rfl
  · subst hb
    have hget : Json.getKey
        (.obj (setAssoc fields "analysis_type" (.str "Real AI Analysis")))
        "analysis_type" = some (.str "Real AI Analysis") := by
      unfold Json.getKey
      exact lookup_setAssoc_self fields _ _
    refine ⟨?_, ?_⟩
    · unfold Json.hasKey
      rw [hget]
      rfl
    · intro hcontra
      rw [hget] at hcontra
      injection hcontra with hc
      injection hc with hc
      exact absurd hc (by decide)

/-- Counterexample to C1 as stated: with the provider answering the JSON
object containing only the key "foo", `/analyze` returns 200 with a body
that lacks the key "segments" (and the other four schema keys). -/
theorem C1_counterexample :
    (analyze_file true envFoo allowedExtensions "meeting.mp4" 10 "T").response
      = .ok fooBody ∧
    fooBody.hasKey "segments" = false ∧
    fooBody.hasKey "analysis_type" = true := by
  have hp : pollLoop envFoo.fileState (envFoo.fileState 0) 0 = (FileState.active, 0) :=
    pollLoop_active envFoo.fileState (envFoo.fileState 0) rfl 0
  have hres : (analyze_with_gemini envFoo).1 = some (Json.obj [("foo", Json.num 1)]) := by
    rw [gemini_result_char, hp]
    rfl
  refine ⟨?_, rfl, rfl⟩
  unfold analyze_file
  rw [hres]
  rfl

/-- Witness for C1 (amended): the fallback body of a concrete request. -/
theorem C1_witness :
    (analyze_file false envNeutral allowedExtensions "meeting.mp4" 10 "T").response
      = .ok (fallbackBodyJson "meeting.mp4" "T") ∧
    ((fallbackBodyJson "meeting.mp4" "T").hasKey "analysis_type" = true ∧
     ((fallbackBodyJson "meeting.mp4" "T").getKey "analysis_type"
         = some (.str "Sample Analysis (AI Unavailable)") →
       (fallbackBodyJson "meeting.mp4" "T").hasKey "segments" = true ∧
       (fallbackBodyJson "meeting.mp4" "T").hasKey "engagement_score" = true ∧
       (fallbackBodyJson "meeting.mp4" "T").hasKey "meeting_summary" = true ∧
       (fallbackBodyJson "meeting.mp4" "T").hasKey "action_items" = true ∧
       (fallbackBodyJson "meeting.mp4" "T").hasKey "improvement_suggestions" = true)) := by
  have hok : (analyze_file false envNeutral allowedExtensions
      "meeting.mp4" 10 "T").response
      = .ok (fallbackBodyJson "meeting.mp4" "T") := rfl
  exact ⟨hok, C1_response_keys false envNeutral allowedExtensions
    "meeting.mp4" 10 "T" _ hok⟩

/-- C4 (amended): when, after stripping and fence cleanup, the text contains
no '\x7b' or no '\x7d', the brace slice is skipped and the ResponseNormalizer
hands the whole cleaned text to the JSON parse; it fails exactly when that
parse fails, for any parse function standing for `json.loads`. -/
theorem C4_no_brace_parses_whole_text (parse : List Char → Option Json)
    (cs : List Char)
    (h : '{' ∉ cleanupJson (pyStrip cs) ∨ '}' ∉ cleanupJson (pyStrip cs)) :
    jsonExtract parse cs = parse (cleanupJson (pyStrip cs)) := by
  unfold jsonExtract normalizeText
  congr 1
  unfold sliceBraces
  rcases h with h | h
  · rw [findChar_eq_none h]
  · rw [rfindChar_eq_none h]
    cases findChar (cleanupJson (pyStrip cs)) '{' <;> rfl

/-- Counterexample to C4 as stated: the brace-free provider text "42" is not
rejected by the normalization step; `json.loads` parses it and the
normalizer returns the value 42 instead of failing. -/
theorem C4_counterexample :
    ('{' ∉ cleanupJson (pyStrip ("42".toList))) ∧
    jsonExtract jsonParse ("42".toList) = some (Json.num 42) :=
  ⟨by decide, rfl⟩

/-- Witness for C4 (amended): on the text "42" the normalizer returns the
parse of the whole cleaned text. -/
theorem C4_witness :
    ('{' ∉ cleanupJson (pyStrip ("42".toList)) ∨
      '}' ∉ cleanupJson (pyStrip ("42".toList))) ∧
    jsonExtract jsonParse ("42".toList)
      = jsonParse (cleanupJson (pyStrip ("42".toList))) :=
  ⟨Or.inl (by decide),
    C4_no_brace_parses_whole_text jsonParse ("42".toList) (Or.inl (by decide))⟩

/-- C6: for every JSON object text (a text of the shape '\x7b' ... '\x7d'
that parses to an object), the normalizer applied to its fenced wrapping
extracts and parses exactly the same object as parsing the text directly,
for any parse function standing for `json.loads`. -/
theorem C6_fenced_roundtrip (parse : List Char → Option Json)
    (mid : List Char) (fields : List (String × Json))
    (hobj : parse ('{' :: (mid ++ ('}' :: []))) = some (.obj fields)) :
    jsonExtract parse (fenceJson ('{' :: (mid ++ ('}' :: [])))) = some (.obj fields) := by
  unfold jsonExtract
  rw [normalizeText_fence, hobj]

/-- Witness for C6: the spec's scenario text with empty `segments`. -/
theorem C6_witness :
    jsonParse ('{' :: (("\"segments\": []".toList) ++ ('}' :: [])))
      = some (.obj [("segments", .arr [])]) ∧
    jsonExtract jsonParse (fenceJson ('{' :: (("\"segments\": []".toList) ++ ('}' :: []))))
      = some (.obj [("segments", .arr [])]) :=
  ⟨rfl, C6_fenced_roundtrip jsonParse ("\"segments\": []".toList) [("segments", .arr [])] rfl⟩
